import Mathlib

/-!
Verification of the natural-language → SQL pipeline
(`routes.py`, `sql_generator.py`, `tinybird_client.py`, `evals.py`).

Strings are embedded as `List Char`; Python string primitives used by the
source (`strip`, `rstrip`, `upper`, substring membership) are given explicit
character-level definitions.  Effectful collaborators (the OpenAI call, the
HTTP POST, the grammar file, the Lark library) are passed in as explicit
parameters, so every function of the source becomes a pure Lean function of
its inputs and its environment.
-/

/-- Characters treated as whitespace by Python's default `strip` (ASCII range). -/
def isPySpace (c : Char) : Bool :=
  c == ' ' || c == '\t' || c == '\n' || c == '\r' || c == '\x0b' || c == '\x0c'

/-- Drop the longest suffix all of whose characters satisfy `p`
(the semantics of Python's `rstrip` with a character set). -/
def dropTrailing (p : Char → Bool) (l : List Char) : List Char :=
  (l.reverse.dropWhile p).reverse

/-- Python `s.lstrip()`. -/
def pyLstrip (l : List Char) : List Char := l.dropWhile isPySpace

/-- Python `s.rstrip()`. -/
def pyRstrip (l : List Char) : List Char := dropTrailing isPySpace l

/-- Python `s.strip()`. -/
def pyStrip (l : List Char) : List Char := pyRstrip (pyLstrip l)

/-- Python `s.rstrip(';')`. -/
def pyRstripSemi (l : List Char) : List Char := dropTrailing (fun c => c == ';') l

/-- Python `s.upper()` (ASCII letters, as in the source's SQL keywords). -/
def pyUpper (l : List Char) : List Char := l.map Char.toUpper

/-- The character list of a string literal. -/
def chars (s : String) : List Char := s.data

/-- Number of start positions at which `pat` occurs as a contiguous
substring of `l` (counting overlapping occurrences). -/
def countInfix (pat : List Char) : List Char → Nat
  | [] => if pat <+: ([] : List Char) then 1 else 0
  | c :: t => (if pat <+: (c :: t) then 1 else 0) + countInfix pat t

/-- Outcome of a Python call site wrapped in `try`/`except`: either a value
or a raised exception carrying `str(e)`. -/
inductive PyOutcome (α : Type) where
  | ok (val : α)
  | exc (msg : List Char)
deriving DecidableEq

/-- Parsed JSON body of a Tinybird response.  The fields the evaluation
suite expects (`data`, `rows`) are optional: a response body may lack them. -/
structure TinybirdJson where
  data : Option (List (List (String × String)))
  rows : Option Nat
deriving DecidableEq

/-- An HTTP response from the Tinybird `/v0/sql` endpoint: status code,
raw body text, and the body parsed as JSON. -/
structure HttpResponse where
  status_code : Nat
  text : List Char
  body : TinybirdJson

/-- Post-processing of the generated candidate in
`sql_generator.generate_sql_from_natural_language` (lines 119-124):
strip, then append `" FORMAT JSON"` after `rstrip().rstrip(';')` exactly
when `"FORMAT JSON"` does not occur in the uppercased text. -/
def genNormalize (sql_query : List Char) : List Char :=
  if chars "FORMAT JSON" <:+: pyUpper (pyStrip sql_query) then pyStrip sql_query
  else pyRstripSemi (pyRstrip (pyStrip sql_query)) ++ chars " FORMAT JSON"

/-- `sql_generator.generate_sql_from_natural_language`, abstracted over the
backend call: `toolCallInput` is the `input` of the first tool-call item of
the OpenAI response, or `none` when no such item exists (in which case the
source raises, wrapped by the outer `except` into the message below). -/
def generate_sql_from_natural_language (toolCallInput : Option (List Char)) :
    PyOutcome (List Char) :=
  match toolCallInput with
  | none => .exc (chars "Error generating SQL: Failed to generate SQL query from OpenAI response - no tool call found")
  | some sql_query => .ok (genNormalize sql_query)

/-- The query rewriting in `tinybird_client.execute_query` (lines 19-22):
strip, then append `" FORMAT JSON"` after `rstrip().rstrip(';')` exactly
when `"FORMAT"` does not occur in the uppercased text.  The result is the
exact string sent as the `"q"` field of the POST body (lines 29-31). -/
def execNormalize (query : List Char) : List Char :=
  if chars "FORMAT" <:+: pyUpper (pyStrip query) then pyStrip query
  else pyRstripSemi (pyRstrip (pyStrip query)) ++ chars " FORMAT JSON"

/-- `tinybird_client.execute_query`, abstracted over the network: `post`
maps the posted `"q"` text to the HTTP response.  A non-200 status raises
`Exception(f"Tinybird API error: ..., ...")`; a 200 status returns
`response.json()` unexamined. -/
def execute_query (query : List Char) (post : List Char → HttpResponse) :
    PyOutcome TinybirdJson :=
  let q := execNormalize query
  let response := post q
  if response.status_code ≠ 200 then
    .exc (chars "Tinybird API error: " ++ chars (Nat.repr response.status_code) ++ chars ", " ++ response.text)
  else
    .ok response.body

/-- Response value of the `/query` route handler: either the success dict
with the original question, the generated SQL and the results, or the
error dict with `str(e)` and the original question. -/
inductive RouteResponse where
  | success (natural_language_query generated_sql : List Char) (results : TinybirdJson)
  | failure (error natural_language_query : List Char)
deriving DecidableEq

/-- `routes.natural_language_query` (the `/query` handler, lines 18-41),
abstracted over its two effectful steps: `gen` is the outcome of
`generate_sql_from_natural_language(request.query)` and `ex` maps a SQL
string to the outcome of `execute_query(sql)`.  Any exception from either
step is caught and rendered as the error dict. -/
def natural_language_query (requestQuery : List Char)
    (gen : PyOutcome (List Char)) (ex : List Char → PyOutcome TinybirdJson) :
    RouteResponse :=
  match gen with
  | .exc m => .failure m requestQuery
  | .ok sql_query =>
    match ex sql_query with
    | .exc m => .failure m requestQuery
    | .ok results => .success requestQuery sql_query results

/-- The text the `/query` pipeline hands to the execution backend as the
`"q"` field, as a function of the generator's tool-call output: `routes.py`
passes the generated SQL straight to `execute_query`, whose only
pre-send processing is `execNormalize`; no other step stands between
generation and the POST. `none` means the pipeline failed before posting. -/
def pipelineSentQuery (toolCallInput : Option (List Char)) : Option (List Char) :=
  match generate_sql_from_natural_language toolCallInput with
  | .exc _ => none
  | .ok sql_query => some (execNormalize sql_query)

/-- Outcome of a call into the Lark library (or of reading the grammar
file): a value, or a raised exception carrying `str(e)`. -/
inductive LarkStep (α : Type) where
  | ok (val : α)
  | raises (msg : List Char)

/-- Environment of `evals.validate_sql_with_grammar`: the outcome of
`load_grammar()` (the grammar file is read on every call), of the parser
construction `Lark(grammar_text)`, and of `parser.parse(sql)`. -/
structure ValidatorEnv where
  load_grammar : LarkStep (List Char)
  larkInit : List Char → LarkStep Unit
  larkParse : List Char → List Char → LarkStep Unit

/-- `evals.validate_sql_with_grammar` (lines 7-20): the whole body runs in
one `try`; success of all three steps yields `(True, "")`, and any raised
exception yields `(False, str(e))` — whichever step raised it. -/
def validate_sql_with_grammar (env : ValidatorEnv) (sql : List Char) :
    Bool × List Char :=
  match env.load_grammar with
  | .raises m => (false, m)
  | .ok grammar_text =>
    match env.larkInit grammar_text with
    | .raises m => (false, m)
    | .ok _ =>
      match env.larkParse grammar_text sql with
      | .raises m => (false, m)
      | .ok _ => (true, [])

/-- State of the grammar file `clickhouse_sql.lark` on disk at some moment
of the process lifetime. -/
structure FileState where
  grammarFile : List Char
deriving DecidableEq

/-- `sql_generator.load_grammar`: opens and reads the grammar file, returning
its content at call time.  There is no cache: the source's own comment says
the grammar is loaded dynamically on each request to pick up changes. -/
def load_grammar (fs : FileState) : List Char := fs.grammarFile

/-- The grammar value used by `generate_sql_from_natural_language` for the
request served while the file is in state `fs`: line 102 calls
`load_grammar()` inside the request. -/
def grammarUsedByGenerate (fs : FileState) : List Char := load_grammar fs

/-- The grammar value used by `validate_sql_with_grammar` for the call made
while the file is in state `fs`: `evals.py` line 15 calls `load_grammar()`
inside the call. -/
def grammarUsedByValidate (fs : FileState) : List Char := load_grammar fs

/-- The read-only leading-keyword condition of the claim: after stripping
leading whitespace, the statement begins (case-insensitively) with `SELECT`
or with `WITH`. -/
def beginsWithReadOnlyKeyword (s : List Char) : Bool :=
  (chars "SELECT").isPrefixOf (pyUpper (pyStrip s)) ||
  (chars "WITH").isPrefixOf (pyUpper (pyStrip s))

/-- Column names taken from `SCHEMA_INFO` in `sql_generator.py`. -/
def specColumnNames : List String :=
  ["department", "monthlyincome", "gender", "attrition", "jobrole", "employeenumber"]

/-- Modelled from the spec: the grammar file `clickhouse_sql.lark` is not
under `src/`.  Following the spec's grammar description (productions for
`SELECT` projection lists over the schema's columns), a projection is
`count()`, a schema column, or a comma-separated pair of projections. -/
inductive SpecProjection : List Char → Prop where
  | countAll : SpecProjection (chars "count()")
  | column (c : String) (h : c ∈ specColumnNames) : SpecProjection (chars c)
  | comma (p q : List Char) : SpecProjection p → SpecProjection q →
      SpecProjection (p ++ chars ", " ++ q)

/-- Modelled from the spec: strings derivable from the missing grammar's
root — `SELECT` statements over the `IBM_HR_Employee_Attrition` table ending
in the mandatory output-format terminal.  Only a fragment of the spec's
grammar is modelled; every string derivable here is derivable in any grammar
matching the spec's description. -/
inductive SpecGrammarDerives : List Char → Prop where
  | select (proj : List Char) : SpecProjection proj →
      SpecGrammarDerives (chars "SELECT " ++ proj ++ chars " FROM IBM_HR_Employee_Attrition FORMAT JSON")

/-- Modelled from the spec: the grammar file is not under `src/`; per the
spec every string derivable from the root is a `SELECT`- or `WITH`-led
statement, so the external parser rejects any other candidate, with a
token/position diagnostic.  Only this rejecting behaviour is relied on
below; the accepting branch over-approximates real acceptance. -/
def specLarkParse (_grammar_text sql : List Char) : LarkStep Unit :=
  if beginsWithReadOnlyKeyword sql then .ok ()
  else .raises (chars "No terminal matches in the current parser context, at line 1 col 1")

/-- A validator environment in which the grammar file loads as `g` and the
parser behaves as `specLarkParse`. -/
def specEnv (g : List Char) : ValidatorEnv :=
  { load_grammar := .ok g
    larkInit := fun _ => .ok ()
    larkParse := specLarkParse }

/-- A validator environment in which reading the grammar file raises — a
state reachable at validation time, since the file is re-opened on every
call.  The parser fields are never consulted on this path. -/
def envLoadFail : ValidatorEnv :=
  { load_grammar := .raises (chars "No such file or directory: clickhouse_sql.lark")
    larkInit := fun _ => .ok ()
    larkParse := specLarkParse }

/-! ### Supporting lemmas about the embedded Python string primitives -/

theorem head?_dropWhile_false (p : Char → Bool) (l : List Char) :
    ∀ c, (l.dropWhile p).head? = some c → p c = false := by
  induction l with
  | nil => intro c hc; simp [List.dropWhile] at hc
  | cons a t ih =>
    intro c hc
    by_cases h : p a = true
    · rw [List.dropWhile_cons_of_pos h] at hc
      exact ih c hc
    · rw [List.dropWhile_cons_of_neg h] at hc
      simp at hc
      rw [← hc]
      simpa using h

theorem dropWhile_eq_self_of_head (p : Char → Bool) (l : List Char)
    (h : ∀ c, l.head? = some c → p c = false) : l.dropWhile p = l := by
  cases l with
  | nil => rfl
  | cons a t =>
    have ha := h a rfl
    rw [List.dropWhile_cons_of_neg (by simp [ha])]

theorem dropTrailing_prefixOf (p : Char → Bool) (l : List Char) :
    dropTrailing p l <+: l := by
  have h := List.reverse_prefix.mpr (List.dropWhile_suffix (l := l.reverse) p)
  rwa [List.reverse_reverse] at h

theorem getLast?_dropTrailing (p : Char → Bool) (l : List Char) :
    ∀ c, (dropTrailing p l).getLast? = some c → p c = false := by
  intro c hc
  unfold dropTrailing at hc
  rw [List.getLast?_reverse] at hc
  exact head?_dropWhile_false p l.reverse c hc

theorem dropTrailing_eq_self (p : Char → Bool) (l : List Char)
    (h : ∀ c, l.getLast? = some c → p c = false) : dropTrailing p l = l := by
  unfold dropTrailing
  rw [dropWhile_eq_self_of_head p l.reverse, List.reverse_reverse]
  intro c hc
  rw [List.head?_reverse] at hc
  exact h c hc

theorem head?_of_prefixOf {m n : List Char} {c : Char} (h : m <+: n)
    (hc : m.head? = some c) : n.head? = some c := by
  obtain ⟨t, rfl⟩ := h
  cases m with
  | nil => simp at hc
  | cons a s => simpa using hc

theorem head?_append_left {m : List Char} (b : List Char) {c : Char}
    (hc : m.head? = some c) : (m ++ b).head? = some c := by
  cases m with
  | nil => simp at hc
  | cons a s => simpa using hc

theorem head?_pyStrip (l : List Char) :
    ∀ c, (pyStrip l).head? = some c → isPySpace c = false := by
  intro c hc
  have h1 : (pyLstrip l).head? = some c :=
    head?_of_prefixOf (dropTrailing_prefixOf isPySpace (pyLstrip l)) hc
  exact head?_dropWhile_false isPySpace l c h1

theorem getLast?_pyStrip (l : List Char) :
    ∀ c, (pyStrip l).getLast? = some c → isPySpace c = false :=
  getLast?_dropTrailing isPySpace (pyLstrip l)

theorem pyStrip_eq_self (l : List Char)
    (h1 : ∀ c, l.head? = some c → isPySpace c = false)
    (h2 : ∀ c, l.getLast? = some c → isPySpace c = false) : pyStrip l = l := by
  unfold pyStrip pyLstrip pyRstrip
  rw [dropWhile_eq_self_of_head isPySpace l h1]
  exact dropTrailing_eq_self isPySpace l h2

theorem pyStrip_idem (l : List Char) : pyStrip (pyStrip l) = pyStrip l :=
  pyStrip_eq_self (pyStrip l) (head?_pyStrip l) (getLast?_pyStrip l)

theorem pyRstrip_pyStrip (l : List Char) : pyRstrip (pyStrip l) = pyStrip l :=
  dropTrailing_eq_self isPySpace (pyStrip l) (getLast?_pyStrip l)

theorem pyUpper_append (a b : List Char) :
    pyUpper (a ++ b) = pyUpper a ++ pyUpper b :=
  List.map_append Char.toUpper a b

theorem infix_append_right' {p b : List Char} (a : List Char) (h : p <:+: b) :
    p <:+: a ++ b :=
  h.trans (List.suffix_append a b).isInfix

theorem countInfix_append (pat a b : List Char)
    (h : ∀ s, s ≠ [] → s <:+ a → ¬ pat <+: s ++ b) :
    countInfix pat (a ++ b) = countInfix pat b := by
  induction a with
  | nil => simp
  | cons c t ih =>
    rw [List.cons_append]
    show (if pat <+: (c :: (t ++ b)) then 1 else 0) + countInfix pat (t ++ b) =
      countInfix pat b
    rw [if_neg (show ¬pat <+: c :: (t ++ b) from
      h (c :: t) (by simp) (List.suffix_refl _))]
    rw [ih fun s hs hsuf => h s hs (hsuf.trans (List.suffix_cons c t))]
    exact Nat.zero_add _

theorem no_straddle {q : List Char} (hq : ¬ chars "FORMAT JSON" <:+: q) :
    ∀ s, s ≠ [] → s <:+ q → ¬ chars "FORMAT JSON" <+: s ++ chars " FORMAT JSON" := by
  intro s hne hsuf hpre
  rcases le_or_lt (chars "FORMAT JSON").length s.length with hle | hlt
  · have h1 : chars "FORMAT JSON" <+: s :=
      List.prefix_of_prefix_length_le hpre (List.prefix_append s _) hle
    exact hq (h1.isInfix.trans hsuf.isInfix)
  · have h2 : s <+: chars "FORMAT JSON" :=
      List.prefix_of_prefix_length_le (List.prefix_append s _) hpre (le_of_lt hlt)
    obtain ⟨t, ht⟩ := h2
    have h3 : t <+: chars " FORMAT JSON" := by
      rw [← ht] at hpre
      obtain ⟨u, hu⟩ := hpre
      rw [List.append_assoc] at hu
      exact ⟨u, (List.append_cancel_left hu)⟩
    have h4 : t = (chars "FORMAT JSON").drop s.length := by
      rw [← ht, List.drop_left]
    have h5 : s.length < 11 := by
      have he : (chars "FORMAT JSON").length = 11 := by decide
      omega
    have h6 : 1 ≤ s.length := List.length_pos.mpr hne
    have h7 := (by decide :
      ∀ k, k < 11 → 1 ≤ k → ¬ (List.drop k (chars "FORMAT JSON") <+: chars " FORMAT JSON"))
      s.length h5 h6
    exact h7 (h4 ▸ h3)

theorem genNormalize_absent {x : List Char}
    (h : ¬ chars "FORMAT JSON" <:+: pyUpper (pyStrip x)) :
    genNormalize x = pyRstripSemi (pyStrip x) ++ chars " FORMAT JSON" ∧
      countInfix (chars "FORMAT JSON") (pyUpper (genNormalize x)) = 1 := by
  have e1 : genNormalize x = pyRstripSemi (pyStrip x) ++ chars " FORMAT JSON" := by
    unfold genNormalize
    rw [if_neg h, pyRstrip_pyStrip]
  refine ⟨e1, ?_⟩
  rw [e1, pyUpper_append]
  have hpre : pyRstripSemi (pyStrip x) <+: pyStrip x :=
    dropTrailing_prefixOf _ (pyStrip x)
  have hq : ¬ chars "FORMAT JSON" <:+: pyUpper (pyRstripSemi (pyStrip x)) := by
    intro hin
    exact h (hin.trans (hpre.map Char.toUpper).isInfix)
  have hup : pyUpper (chars " FORMAT JSON") = chars " FORMAT JSON" := by decide
  rw [hup, countInfix_append _ _ _ (no_straddle hq)]
  decide

/-! ### Claim theorems -/

/-- C1 (amended): the `/query` pipeline performs no read-only leading-keyword
check and has no `NonReadOnlyStatement` failure: every successfully generated
candidate — in particular one that does not begin with `SELECT` or `WITH` —
is normalized and handed to the execution backend. -/
theorem pipeline_sends_non_read_only_candidate (sql : List Char)
    (_h : beginsWithReadOnlyKeyword sql = false) :
    pipelineSentQuery (some sql) = some (execNormalize (genNormalize sql)) := rfl

/-- Witness for C1 at the concrete candidate `DROP TABLE employees`. -/
theorem pipeline_sends_non_read_only_candidate_witness :
    beginsWithReadOnlyKeyword (chars "DROP TABLE employees") = false ∧
    pipelineSentQuery (some (chars "DROP TABLE employees")) =
      some (execNormalize (genNormalize (chars "DROP TABLE employees"))) :=
  ⟨by decide, pipeline_sends_non_read_only_candidate (chars "DROP TABLE employees") (by decide)⟩

/-- C1 counterexample: the candidate `DROP TABLE employees` begins with no
read-only keyword, yet the pipeline does not terminate with any failure:
the statement is sent to the execution backend (with the format suffix
appended), contradicting the claim that a `NonReadOnlyStatement` failure
precedes any execution call. -/
theorem non_read_only_candidate_reaches_backend :
    beginsWithReadOnlyKeyword (chars "DROP TABLE employees") = false ∧
    pipelineSentQuery (some (chars "DROP TABLE employees")) =
      some (chars "DROP TABLE employees FORMAT JSON") :=
  ⟨by decide, by decide⟩

/-- C2 (amended): the `/query` pipeline never invokes the grammar validator
(which exists only in the evaluation suite): the generated candidate goes
directly from generator to executor, so even a candidate on which
`validate_sql_with_grammar` reports rejection is sent to the execution
backend. -/
theorem pipeline_ignores_validator_verdict (env : ValidatorEnv) (sql : List Char)
    (_h : (validate_sql_with_grammar env sql).fst = false) :
    pipelineSentQuery (some sql) = some (execNormalize (genNormalize sql)) := rfl

/-- Witness for C2: a candidate the (spec-modelled) validator rejects is
still sent. -/
theorem pipeline_ignores_validator_verdict_witness :
    (validate_sql_with_grammar (specEnv (chars "start: query"))
      (chars "DELETE FROM IBM_HR_Employee_Attrition")).fst = false ∧
    pipelineSentQuery (some (chars "DELETE FROM IBM_HR_Employee_Attrition")) =
      some (execNormalize (genNormalize (chars "DELETE FROM IBM_HR_Employee_Attrition"))) :=
  ⟨by decide, pipeline_ignores_validator_verdict (specEnv (chars "start: query"))
    (chars "DELETE FROM IBM_HR_Employee_Attrition") (by decide)⟩

/-- C2 counterexample: `DELETE FROM IBM_HR_Employee_Attrition` is rejected by
the validator, yet the pipeline sends it to the executor — a query reaches
the executor without having been accepted by the grammar validator. -/
theorem validator_rejected_candidate_reaches_backend :
    (validate_sql_with_grammar (specEnv (chars "start: query"))
      (chars "DELETE FROM IBM_HR_Employee_Attrition")).fst = false ∧
    pipelineSentQuery (some (chars "DELETE FROM IBM_HR_Employee_Attrition")) =
      some (chars "DELETE FROM IBM_HR_Employee_Attrition FORMAT JSON") :=
  ⟨by decide, by decide⟩

/-- C3 (amended): the normalizer appends the output-format directive exactly
when no (case-insensitive) occurrence of `FORMAT JSON` exists in the
stripped input; in that case the output ends with the directive and contains
exactly one occurrence of it.  An input already containing the directive is
returned stripped but otherwise unchanged, so pre-existing duplicate or
non-final directives are preserved rather than reduced to one. -/
theorem genNormalize_directive_append_behavior (x : List Char) :
    (¬ chars "FORMAT JSON" <:+: pyUpper (pyStrip x) →
      genNormalize x = pyRstripSemi (pyStrip x) ++ chars " FORMAT JSON" ∧
      countInfix (chars "FORMAT JSON") (pyUpper (genNormalize x)) = 1) ∧
    (chars "FORMAT JSON" <:+: pyUpper (pyStrip x) → genNormalize x = pyStrip x) := by
  constructor
  · intro h
    exact genNormalize_absent h
  · intro h
    unfold genNormalize
    rw [if_pos h]

/-- Witness for C3: on `SELECT 1`, which lacks the directive, normalization
appends it once, and the output has exactly one occurrence. -/
theorem genNormalize_directive_append_behavior_witness :
    genNormalize (chars "SELECT 1") =
      pyRstripSemi (pyStrip (chars "SELECT 1")) ++ chars " FORMAT JSON" ∧
    countInfix (chars "FORMAT JSON") (pyUpper (genNormalize (chars "SELECT 1"))) = 1 :=
  (genNormalize_directive_append_behavior (chars "SELECT 1")).1 (by decide)

/-- C3 counterexample: an input that already contains the output-format
directive twice is returned unchanged by the normalizer, so its output
contains two directives — not exactly one. -/
theorem genNormalize_preserves_duplicate_directives :
    genNormalize (chars "SELECT 1 FORMAT JSON FORMAT JSON") =
      chars "SELECT 1 FORMAT JSON FORMAT JSON" ∧
    countInfix (chars "FORMAT JSON")
      (pyUpper (genNormalize (chars "SELECT 1 FORMAT JSON FORMAT JSON"))) = 2 :=
  ⟨by decide, by decide⟩

/-- C4 (amended): normalization is idempotent on every input that still
contains some character after stripping surrounding whitespace and trailing
semicolons.  (On the remaining degenerate inputs — whitespace and semicolons
only — normalization yields `" FORMAT JSON"` with a leading space, which a
second normalization strips, so idempotence fails there.) -/
theorem genNormalize_idempotent_on_nondegenerate (x : List Char)
    (h : pyRstripSemi (pyStrip x) ≠ []) :
    genNormalize (genNormalize x) = genNormalize x := by
  by_cases hc : chars "FORMAT JSON" <:+: pyUpper (pyStrip x)
  · have e1 : genNormalize x = pyStrip x := by
      unfold genNormalize
      rw [if_pos hc]
    rw [e1]
    unfold genNormalize
    rw [pyStrip_idem, if_pos hc]
  · have e1 : genNormalize x = pyRstripSemi (pyStrip x) ++ chars " FORMAT JSON" :=
      (genNormalize_absent hc).1
    rw [e1]
    have hqpre : pyRstripSemi (pyStrip x) <+: pyStrip x :=
      dropTrailing_prefixOf _ (pyStrip x)
    obtain ⟨c0, hc0⟩ : ∃ c0, (pyRstripSemi (pyStrip x)).head? = some c0 := by
      cases hq : pyRstripSemi (pyStrip x) with
      | nil => exact absurd hq h
      | cons a t => exact ⟨a, rfl⟩
    have hc0s : isPySpace c0 = false :=
      head?_pyStrip x c0 (head?_of_prefixOf hqpre hc0)
    have hstrip : pyStrip (pyRstripSemi (pyStrip x) ++ chars " FORMAT JSON") =
        pyRstripSemi (pyStrip x) ++ chars " FORMAT JSON" := by
      apply pyStrip_eq_self
      · intro c hcc
        rw [head?_append_left (chars " FORMAT JSON") hc0] at hcc
        rw [← Option.some.inj hcc]
        exact hc0s
      · intro c hcc
        rw [List.getLast?_append_of_ne_nil _
          (show chars " FORMAT JSON" ≠ [] by decide)] at hcc
        have h8 : (chars " FORMAT JSON").getLast? = some 'N' := by decide
        rw [h8] at hcc
        rw [← Option.some.inj hcc]
        decide
    have hcond : chars "FORMAT JSON" <:+:
        pyUpper (pyStrip (pyRstripSemi (pyStrip x) ++ chars " FORMAT JSON")) := by
      rw [hstrip, pyUpper_append]
      exact infix_append_right' _ (by decide)
    unfold genNormalize
    rw [if_pos hcond, hstrip]

/-- Witness for C4 at the concrete input `SELECT 1`. -/
theorem genNormalize_idempotent_on_nondegenerate_witness :
    pyRstripSemi (pyStrip (chars "SELECT 1")) ≠ [] ∧
    genNormalize (genNormalize (chars "SELECT 1")) = genNormalize (chars "SELECT 1") :=
  ⟨by decide, genNormalize_idempotent_on_nondegenerate (chars "SELECT 1") (by decide)⟩

/-- C4 counterexample: on the empty input, normalization yields
`" FORMAT JSON"` whose re-normalization yields `"FORMAT JSON"`, so
`normalize (normalize x) = normalize x` fails. -/
theorem genNormalize_not_idempotent_on_empty :
    genNormalize (genNormalize (chars "")) ≠ genNormalize (chars "") := by decide

/-- C5 (amended): `execute_query` succeeds with the parsed body exactly when
the response status is 200 — any other status, including other 2xx statuses,
raises — and the raised message embeds the status code and the backend's
response body text verbatim. -/
theorem execute_query_fails_iff_status_ne_200 (query : List Char)
    (post : List Char → HttpResponse) :
    ((post (execNormalize query)).status_code = 200 →
      execute_query query post = .ok (post (execNormalize query)).body) ∧
    ((post (execNormalize query)).status_code ≠ 200 →
      execute_query query post = .exc (chars "Tinybird API error: " ++
        chars (Nat.repr (post (execNormalize query)).status_code) ++
        chars ", " ++ (post (execNormalize query)).text)) := by
  constructor
  · intro h
    simp [execute_query, h]
  · intro h
    simp [execute_query, h]

/-- Witness for C5: a 201 response raises with the status and body embedded
in the message. -/
theorem execute_query_fails_iff_status_ne_200_witness :
    ((fun _ => ⟨201, chars "created", ⟨none, none⟩⟩ :
        List Char → HttpResponse) (execNormalize (chars "SELECT 1"))).status_code ≠ 200 ∧
    execute_query (chars "SELECT 1")
        (fun _ => ⟨201, chars "created", ⟨none, none⟩⟩) =
      .exc (chars "Tinybird API error: 201, created") :=
  ⟨by decide, (execute_query_fails_iff_status_ne_200 (chars "SELECT 1")
    (fun _ => ⟨201, chars "created", ⟨none, none⟩⟩)).2 (by decide)⟩

/-- C5 counterexample: 201 is a 2xx status, yet `execute_query` treats it as
a failure — so it is not the case that every 2xx status is a success. -/
theorem execute_query_rejects_status_201 :
    (200 ≤ 201 ∧ 201 < 300) ∧
    execute_query (chars "SELECT 1")
        (fun _ => ⟨201, chars "created", ⟨none, none⟩⟩) =
      .exc (chars "Tinybird API error: 201, created") :=
  ⟨by decide, by decide⟩

/-- C6 (amended): on a 200 response, `execute_query` returns the parsed JSON
body unconditionally — it never inspects whether the expected row-data or
row-count fields are present, and no `MalformedResponse` failure exists. -/
theorem execute_query_returns_body_on_200 (query : List Char)
    (post : List Char → HttpResponse)
    (h : (post (execNormalize query)).status_code = 200) :
    execute_query query post = .ok (post (execNormalize query)).body := by
  simp [execute_query, h]

/-- Witness for C6: a 200 response whose body lacks both expected fields is
still returned as a success. -/
theorem execute_query_returns_body_on_200_witness :
    ((fun _ => ⟨200, [], ⟨none, none⟩⟩ :
        List Char → HttpResponse) (execNormalize (chars "SELECT 1"))).status_code = 200 ∧
    execute_query (chars "SELECT 1") (fun _ => ⟨200, [], ⟨none, none⟩⟩) =
      .ok ⟨none, none⟩ :=
  ⟨rfl, execute_query_returns_body_on_200 (chars "SELECT 1")
    (fun _ => ⟨200, [], ⟨none, none⟩⟩) rfl⟩

/-- C6 counterexample: a 200 response whose body has neither row data nor a
row count is returned as a success carrying the incomplete body — no
`MalformedResponse` failure is produced. -/
theorem execute_query_success_without_expected_fields :
    execute_query (chars "SELECT 1") (fun _ => ⟨200, [], ⟨none, none⟩⟩) =
      .ok ⟨none, none⟩ ∧
    (⟨none, none⟩ : TinybirdJson).data = none ∧
    (⟨none, none⟩ : TinybirdJson).rows = none :=
  ⟨by decide, rfl, rfl⟩

/-- C7 (amended): the grammar is re-read from the file on every generation
and every validation call — there is no startup load and no cache — so a
generation and a validation observe the same grammar value exactly when the
grammar file holds the same content at their respective call times. -/
theorem grammar_observed_tracks_file_state (fs fs' : FileState) :
    grammarUsedByGenerate fs = grammarUsedByValidate fs' ↔
      fs.grammarFile = fs'.grammarFile := Iff.rfl

/-- C7 counterexample: two requests served while the grammar file holds
different contents observe different grammar values, with no hot-swap
mechanism involved — contradicting load-once-at-startup immutability. -/
theorem different_requests_observe_different_grammars :
    grammarUsedByGenerate ⟨chars "start: select_query"⟩ ≠
      grammarUsedByGenerate ⟨chars "start: mutating_query"⟩ := by decide

/-- C8 (amended): `validate_sql_with_grammar` reports accepted exactly when
grammar loading, parser construction and parsing all succeed; any raised
exception — including a grammar-load failure, which can occur at validation
time because the file is re-opened on every call — is reported as rejection
carrying that exception's message, so acceptance tracks derivability only
when the grammar loads and the external parser is correct. -/
theorem validate_accepts_iff_all_steps_succeed (env : ValidatorEnv) (sql : List Char) :
    validate_sql_with_grammar env sql = (true, ([] : List Char)) ↔
      ∃ g, env.load_grammar = .ok g ∧ env.larkInit g = .ok () ∧
        env.larkParse g sql = .ok () := by
  unfold validate_sql_with_grammar
  cases hl : env.load_grammar with
  | raises m => simp [hl]
  | ok g =>
    cases hi : env.larkInit g with
    | raises m => simp [hi]
    | ok u =>
      cases u
      cases hp : env.larkParse g sql with
      | raises m => simp [hi, hp]
      | ok u2 =>
        cases u2
        simp [hi, hp]

/-- C8 counterexample: a query the (spec-modelled) grammar derives is
rejected by `validate_sql_with_grammar` when reading the grammar file
raises, and the diagnostic is the file error, which names no position —
so `validate` does not accept every string derivable from the root. -/
theorem derivable_query_rejected_on_load_failure :
    SpecGrammarDerives (chars "SELECT count() FROM IBM_HR_Employee_Attrition FORMAT JSON") ∧
    validate_sql_with_grammar envLoadFail
        (chars "SELECT count() FROM IBM_HR_Employee_Attrition FORMAT JSON") =
      (false, chars "No such file or directory: clickhouse_sql.lark") := by
  constructor
  · have h := SpecGrammarDerives.select (chars "count()") SpecProjection.countAll
    have e : chars "SELECT " ++ chars "count()" ++
        chars " FROM IBM_HR_Employee_Attrition FORMAT JSON" =
        chars "SELECT count() FROM IBM_HR_Employee_Attrition FORMAT JSON" := by decide
    rwa [e] at h
  · rfl

/-- C9: the `/query` handler always returns a response object rather than
propagating an exception: on success it carries the original question, the
generated SQL and the execution results; on any failure of either stage it
carries that failure's message together with the original question. -/
theorem query_route_total_response (q : List Char) (gen : PyOutcome (List Char))
    (ex : List Char → PyOutcome TinybirdJson) :
    (∃ m, gen = .exc m ∧ natural_language_query q gen ex = .failure m q) ∨
    (∃ sql m, gen = .ok sql ∧ ex sql = .exc m ∧
      natural_language_query q gen ex = .failure m q) ∨
    (∃ sql r, gen = .ok sql ∧ ex sql = .ok r ∧
      natural_language_query q gen ex = .success q sql r) := by
  cases gen with
  | exc m => exact .inl ⟨m, rfl, rfl⟩
  | ok sql =>
    cases he : ex sql with
    | ok r => exact .inr (.inr ⟨sql, r, rfl, he, by simp [natural_language_query, he]⟩)
    | exc m => exact .inr (.inl ⟨sql, m, rfl, he, by simp [natural_language_query, he]⟩)

/-- C10: the text `execute_query` posts as the `"q"` field always contains
the output-format token `FORMAT` (case-insensitively): the executor appends
the output-format directive itself whenever no such token is present, so the
backend never receives a query without one. -/
theorem sent_query_contains_format_token (query : List Char) :
    chars "FORMAT" <:+: pyUpper (execNormalize query) := by
  unfold execNormalize
  by_cases h : chars "FORMAT" <:+: pyUpper (pyStrip query)
  · rwa [if_pos h]
  · rw [if_neg h, pyUpper_append]
    exact infix_append_right' _ (by decide)
